import Mathlib

/-!
Shallow embedding of parts of the libRSF repository:
  * `src/Resampling.cpp` — measurement downsampling and averaging utilities
  * `App_GNSS.cpp` — the GNSS estimation application (init, predict/measure
    loop, solve scheduling, top-level `main`)

Timestamps and vector entries are modelled as rationals; Eigen vectors as
`List ℚ`.  Each definition is translated from the corresponding C++ source;
functions of the repository that are not part of the provided sources
(graph container primitives, timestamp queries) are modelled from the
specification and marked as such in their doc comments.
-/

namespace LibRSF

/-- Model of `libRSF::SensorData`: a sensor type tag, a timestamp, a mean
vector, and a (diagonal) covariance stored as a vector of entries. -/
structure SensorData where
  type : ℕ
  timestamp : ℚ
  mean : List ℚ
  covariance : List ℚ
deriving DecidableEq, Repr

/-- Default-constructed `SensorData` (returned by `AverageMeasurement` on
empty input). -/
def defaultSensor : SensorData := ⟨0, 0, [], []⟩

instance : Inhabited SensorData := ⟨defaultSensor⟩

/-- Eigen `cwiseInverse` on a vector of entries. -/
def cwiseInverse (v : List ℚ) : List ℚ := v.map (fun x => x⁻¹)

/-- Componentwise vector addition (Eigen `+=` on equal-sized vectors). -/
def addV (a b : List ℚ) : List ℚ := List.zipWith (· + ·) a b

/-- Zero vector of a given size (Eigen `setZero` after sized construction). -/
def zeroVec (n : ℕ) : List ℚ := List.replicate n 0

/-- Shallow embedding of `libRSF::AverageMeasurement` from
`src/Resampling.cpp`.  Returns the averaged measurement together with a flag
recording whether the degenerate-empty error was printed (`PRINT_ERROR`).
For an empty input it returns a default-constructed measurement and logs;
a singleton is returned directly; otherwise the timestamp and mean are
arithmetic means and the covariance is the componentwise inverse of the
summed componentwise inverses. -/
def AverageMeasurement : List SensorData → SensorData × Bool
  | [] => (defaultSensor, true)
  | [x] => (x, false)
  | x :: y :: rest =>
    let Input := x :: y :: rest
    let acc := Input.foldl
      (fun (a : ℚ × List ℚ × List ℚ) m =>
        (a.1 + m.timestamp, addV a.2.1 m.mean, addV a.2.2 (cwiseInverse m.covariance)))
      (0, zeroVec x.mean.length, zeroVec x.covariance.length)
    let n : ℚ := (Input.length : ℚ)
    let lastM := Input.getLastD x
    ({ lastM with
        timestamp := acc.1 / n
        mean := acc.2.1.map (· / n)
        covariance := cwiseInverse acc.2.2 }, false)

/-- One flush step of `SampleMeasurementsDown`: average the window and then
set the output timestamp to the window's last measurement
(`Output.back().setTimestamp(AveragingWindow.back().getTimestamp())`). -/
def flushAvg (w : List SensorData) : SensorData :=
  let a := (AverageMeasurement w).1
  { a with timestamp := (w.getLastD defaultSensor).timestamp }

/-- The grouping loop of `SampleMeasurementsDown`: walk the input, push each
measurement into the averaging window, and flush the window to the output
when the period is over (`ts ≥ TimeNext`) or the final timestamp is reached
(`ts = TimeMax`). -/
def sampleLoop (SampleTime TimeMax : ℚ) :
    List SensorData → ℚ → List SensorData → List SensorData → List SensorData
  | [], _, _, Output => Output
  | s :: rest, TimeNext, Window, Output =>
    let Window2 := Window ++ [s]
    if TimeNext ≤ s.timestamp ∨ s.timestamp = TimeMax then
      sampleLoop SampleTime TimeMax rest (TimeNext + SampleTime) []
        (Output ++ [flushAvg Window2])
    else
      sampleLoop SampleTime TimeMax rest TimeNext Window2 Output

/-- Shallow embedding of `libRSF::SampleMeasurementsDown` from
`src/Resampling.cpp`.  Returns the downsampled output together with a flag
recording whether the degenerate-empty error was printed. -/
def SampleMeasurementsDown (Input : List SensorData) (SampleTime : ℚ) :
    List SensorData × Bool :=
  match Input with
  | [] => ([], true)
  | x :: xs =>
    let TimeNext := x.timestamp + SampleTime
    let TimeMax := ((x :: xs).getLastD x).timestamp
    (sampleLoop SampleTime TimeMax (x :: xs) TimeNext [] [], false)

/-- Ghost variant of `sampleLoop` that records the averaging windows
themselves instead of their averages. -/
def windowsLoop (SampleTime TimeMax : ℚ) :
    List SensorData → ℚ → List SensorData → List (List SensorData) →
    List (List SensorData)
  | [], _, _, Acc => Acc
  | s :: rest, TimeNext, Window, Acc =>
    let Window2 := Window ++ [s]
    if TimeNext ≤ s.timestamp ∨ s.timestamp = TimeMax then
      windowsLoop SampleTime TimeMax rest (TimeNext + SampleTime) [] (Acc ++ [Window2])
    else
      windowsLoop SampleTime TimeMax rest TimeNext Window2 Acc

/-- The averaging windows that `SampleMeasurementsDown` forms on an input. -/
def theWindows (Input : List SensorData) (SampleTime : ℚ) :
    List (List SensorData) :=
  match Input with
  | [] => []
  | x :: xs =>
    windowsLoop SampleTime ((x :: xs).getLastD x).timestamp (x :: xs)
      (x.timestamp + SampleTime) [] []

/-! ### App_GNSS: configuration, factor graph model, and initialization -/

/-- Activation flag of one sensing modality (`Config.GNSS`, `Config.IMU`,
`Config.Odom` in `FactorGraphConfig`). -/
structure ModConfig where
  IsActive : Bool
deriving DecidableEq, Repr

/-- The prior part of the configuration: activation flag, whether its type is
`FactorType::Prior3`, and the parameter vector `[x,y,z,σx,σy,σz]`. -/
structure PriorConfig where
  IsActive : Bool
  TypeIsPrior3 : Bool
  Parameter : List ℚ
deriving DecidableEq, Repr

/-- The configuration fields of `libRSF::FactorGraphConfig` used by
`App_GNSS.cpp`. -/
structure FactorGraphConfig where
  GNSS : ModConfig
  IMU : ModConfig
  Odom : ModConfig
  Prior : PriorConfig
deriving DecidableEq, Repr

/-- Name of the position state series (`POSITION_STATE`). -/
def POSITION_STATE : String := "Position"

/-- A state variable of the factor graph: key `(name, timestamp)`, current
mean, and the free/frozen flag (spec §3: `free` variables are adjusted by
solving, `frozen` ones are held fixed). -/
structure StateVar where
  name : String
  timestamp : ℚ
  mean : List ℚ
  frozen : Bool
deriving DecidableEq, Repr

/-- A prior factor: the key of the state it connects, the prior mean, and the
diagonal standard deviation of its Gaussian noise model. -/
structure PriorFactor where
  stateName : String
  stateTime : ℚ
  priorMean : List ℚ
  stdDev : List ℚ
deriving DecidableEq, Repr

/-- The factor graph: a keyed collection of state variables and an
append-only list of factors (spec §3). -/
structure FactorGraph where
  states : List StateVar
  factors : List PriorFactor
deriving DecidableEq, Repr

/-- Modelled from the spec (§4.1, `FactorGraph::addState` is not among the
provided sources): creates a new free StateVariable with the default mean (a
zero vector of the semantic type's dimension). -/
def addState (g : FactorGraph) (name : String) (dim : ℕ) (timestamp : ℚ) :
    FactorGraph :=
  { g with states := g.states ++ [⟨name, timestamp, zeroVec dim, false⟩] }

/-- Modelled from the spec (§4.1, `FactorGraph::addFactor` is not among the
provided sources): appends one factor connecting an existing state key. -/
def addPriorFactor (g : FactorGraph) (name : String) (timestamp : ℚ)
    (priorMean stdDev : List ℚ) : FactorGraph :=
  { g with factors := g.factors ++ [⟨name, timestamp, priorMean, stdDev⟩] }

/-- Modelled from the spec (§4.1, `FactorGraph::setAllConstantOutsideWindow`
is not among the provided sources): every StateVariable with
`timestamp < currentTime - windowLength` transitions free→frozen; the
transition is one-directional. -/
def setAllConstantOutsideWindow (g : FactorGraph) (windowLength currentTime : ℚ) :
    FactorGraph :=
  { g with states := (g.states.map
      (fun s => { s with frozen := s.frozen || decide (s.timestamp < currentTime - windowLength) })) }

/-- Modelled from the spec: `InitWithGNSS` (not among the provided sources)
uses the first GNSS measurement to seed the first position state and the
tangent plane.  Only its graph effect is modelled. -/
def InitWithGNSS (g : FactorGraph) (Measurements : List SensorData)
    (TimeInitial : ℚ) : FactorGraph :=
  match Measurements.head? with
  | some fix =>
      { g with states := g.states ++ [⟨POSITION_STATE, TimeInitial, fix.mean, false⟩] }
  | none => g

/-- Modelled from the spec: `InitIMU` (not among the provided sources) uses
the earliest inertial measurements to initialize the IMU biases; modelled as
adding a bias state at the initial timestamp. -/
def InitIMU (g : FactorGraph) (TimeInitial : ℚ) : FactorGraph :=
  addState g "IMUBias" 9 TimeInitial

/-- Modelled from the spec: `InitOdom` (not among the provided sources)
attaches a generic rotation prior; modelled as an orientation state with a
prior factor at the initial timestamp. -/
def InitOdom (g : FactorGraph) (TimeInitial : ℚ) : FactorGraph :=
  addPriorFactor (addState g "Orientation" 4 TimeInitial)
    "Orientation" TimeInitial (zeroVec 4) (zeroVec 4)

/-- Shallow embedding of `InitGraph` from `App_GNSS.cpp`: the GNSS branch
sets `IsInitialized`; the IMU/Odom add-ons run independently; if no
initialization was done, the fallback adds the first position state, a broad
prior at `[0,0,0]` with shared standard deviation `1.0`
(`setStdDevSharedDiagonal(1.0)`), and then freezes the initial states via
`setAllConstantOutsideWindow(1.0, TimeInitial)`. -/
def InitGraph (Config : FactorGraphConfig) (Measurements : List SensorData)
    (TimeInitial : ℚ) : FactorGraph :=
  let g0 : FactorGraph := ⟨[], []⟩
  let g1 := if Config.GNSS.IsActive then InitWithGNSS g0 Measurements TimeInitial else g0
  let g2 :=
    if Config.IMU.IsActive then InitIMU g1 TimeInitial
    else if Config.Odom.IsActive then InitOdom g1 TimeInitial
    else g1
  if !Config.GNSS.IsActive then
    let g3 := addState g2 POSITION_STATE 3 TimeInitial
    let g4 := addPriorFactor g3 POSITION_STATE TimeInitial (zeroVec 3) [1, 1, 1]
    setAllConstantOutsideWindow g4 1 TimeInitial
  else g2

/-! ### App_GNSS: the estimation loop as an event trace -/

/-- Truncation toward zero of a rational, as C's `trunc` used by `fmod`. -/
def truncQ (x : ℚ) : ℚ := if 0 ≤ x then (⌊x⌋ : ℚ) else (⌈x⌉ : ℚ)

/-- C's `fmod(x, y)`: `x - trunc(x / y) * y`. -/
def fmodC (x y : ℚ) : ℚ := x - truncQ (x / y) * y

/-- Observable actions of `CreateGraphAndSolve`, in program order. -/
inductive Event where
  | initGraph (t : ℚ)
  | addIMU (timeOld timeNow : ℚ)
  | addOdometry (timeOld timeNow : ℚ)
  | addGNSS (timeOld timeNow : ℚ)
  | addPriorMeasure (timeNow : ℚ)
  | refineSolve (timeNow : ℚ)
  | solveCall (force : Bool)
deriving DecidableEq, Repr

/-- Shallow embedding of `Predict` from `App_GNSS.cpp`: `AddIMU` when IMU is
active, then `AddOdometry` when odometry is active. -/
def Predict (Config : FactorGraphConfig) (TimeOld TimeNow : ℚ) : List Event :=
  (if Config.IMU.IsActive then [Event.addIMU TimeOld TimeNow] else []) ++
  (if Config.Odom.IsActive then [Event.addOdometry TimeOld TimeNow] else [])

/-- Shallow embedding of `Measure` from `App_GNSS.cpp`: `AddGNSS` when GNSS
is active, then the optional `Prior3` position prior. -/
def Measure (Config : FactorGraphConfig) (TimeOld TimeNow : ℚ) : List Event :=
  (if Config.GNSS.IsActive then [Event.addGNSS TimeOld TimeNow] else []) ++
  (if Config.Prior.IsActive && Config.Prior.TypeIsPrior3
   then [Event.addPriorMeasure TimeNow] else [])

/-- One iteration of the `do … while` loop of `CreateGraphAndSolve`:
`Predict` only when `TimeNow > TimeFirst`, then `Measure`, then the
unconditional initial refinement solve (`Graph.solve`) when
`TimeNow == TimeFirst`, then the scheduled `Solve` whose force flag is the
literal source expression `fmod(TimeNow, 60.0) < (TimeNow - TimeOld) * 1.1`. -/
def stepEvents (Config : FactorGraphConfig) (TimeFirst TimeOld TimeNow : ℚ) :
    List Event :=
  (if TimeFirst < TimeNow then Predict Config TimeOld TimeNow else []) ++
  Measure Config TimeOld TimeNow ++
  (if TimeNow = TimeFirst then [Event.refineSolve TimeNow] else []) ++
  [Event.solveCall (decide (fmodC TimeNow 60 < (TimeNow - TimeOld) * (11 / 10)))]

/-- The update loop over the processed timestamps, threading `TimeOld` from
one iteration to the next (`IncrementTime` is not among the provided
sources; the sequence of processed timestamps is abstracted as a list). -/
def loopTrace (Config : FactorGraphConfig) (TimeFirst : ℚ) :
    List ℚ → ℚ → List Event
  | [], _ => []
  | t :: ts, timeOld =>
    stepEvents Config TimeFirst timeOld t ++ loopTrace Config TimeFirst ts t

/-- The event trace of a successful `CreateGraphAndSolve` run: `InitGraph`
at `TimeFirst`, the update loop starting at `TimeNow = TimeFirst` with
`TimeOld = TimeFirst - 1`, and the final post-loop `Solve(…, true)`. -/
def runTrace (Config : FactorGraphConfig) (TimeFirst : ℚ) (laterSteps : List ℚ) :
    List Event :=
  Event.initGraph TimeFirst ::
    (loopTrace Config TimeFirst (TimeFirst :: laterSteps) (TimeFirst - 1) ++
     [Event.solveCall true])

/-- Sensor type tags used to decide which measurement streams are relevant
to the active configuration. -/
def typeGNSS : ℕ := 1

/-- Sensor type tag of inertial measurements. -/
def typeIMU : ℕ := 2

/-- Sensor type tag of odometry measurements. -/
def typeOdom : ℕ := 3

/-- The sensor types of the active modalities of a configuration. -/
def activeTypes (Config : FactorGraphConfig) : List ℕ :=
  (if Config.GNSS.IsActive then [typeGNSS] else []) ++
  (if Config.IMU.IsActive then [typeIMU] else []) ++
  (if Config.Odom.IsActive then [typeOdom] else [])

/-- Modelled from the spec: `GetFirstTimestamp` (not among the provided
sources) yields the first timestamp in the relevant active streams, and fails
when none exists. -/
def GetFirstTimestamp (Measurements : List SensorData)
    (Config : FactorGraphConfig) : Option ℚ :=
  match (Measurements.filter (fun m => m.type ∈ activeTypes Config)).map
      (fun m => m.timestamp) with
  | [] => none
  | t :: ts => some (ts.foldl min t)

/-- Modelled from the spec: `GetLastTimestamp` (not among the provided
sources) yields the last timestamp in the relevant active streams, and fails
when none exists. -/
def GetLastTimestamp (Measurements : List SensorData)
    (Config : FactorGraphConfig) : Option ℚ :=
  match (Measurements.filter (fun m => m.type ∈ activeTypes Config)).map
      (fun m => m.timestamp) with
  | [] => none
  | t :: ts => some (ts.foldl max t)

/-- Shallow embedding of the control flow of `CreateGraphAndSolve` from
`App_GNSS.cpp`: if the first or last relevant timestamp cannot be
determined, it prints an error and returns `1` before any graph work;
otherwise it returns `0` with the full event trace of the run. -/
def CreateGraphAndSolve (Config : FactorGraphConfig)
    (Measurements : List SensorData) (laterSteps : List ℚ) : ℕ × List Event :=
  match GetFirstTimestamp Measurements Config with
  | none => (1, [])
  | some TimeFirst =>
    match GetLastTimestamp Measurements Config with
    | none => (1, [])
    | some _ => (0, runTrace Config TimeFirst laterSteps)

/-- Result of the `main` function: the process exit status, whether the
failure message was printed, and whether the output files were written. -/
structure MainResult where
  exitStatus : ℕ
  loggedError : Bool
  wroteOutput : Bool
deriving DecidableEq, Repr

/-- Shallow embedding of `main` from `App_GNSS.cpp`: when
`CreateGraphAndSolve` returns nonzero it prints an error and skips writing
the output, otherwise it writes the output; in both cases it ends with
`return 0`. -/
def appMain (Config : FactorGraphConfig) (Measurements : List SensorData)
    (laterSteps : List ℚ) : MainResult :=
  if (CreateGraphAndSolve Config Measurements laterSteps).1 ≠ 0 then
    ⟨0, true, false⟩
  else
    ⟨0, false, true⟩

/-- The scheduled force flags appearing in an event trace, in order. -/
def solveFlags (es : List Event) : List Bool :=
  es.filterMap (fun e => match e with
    | Event.solveCall b => some b
    | _ => none)

/-- The prediction (motion-model) events appearing in an event trace. -/
def predictEventsOf (es : List Event) : List Event :=
  es.filter (fun e => match e with
    | Event.addIMU _ _ => true
    | Event.addOdometry _ _ => true
    | _ => false)

/-- The solve-scheduler policy exactly as the spec words it:
`forceSolve(T, dt) := (T mod 60) < 1.1 × dt`. -/
def forceSolve (T dt : ℚ) : Bool := decide (fmodC T 60 < (11 / 10) * dt)

/-- The spec-side sequence of scheduler decisions over a timestep list,
threading the previous timestamp. -/
def forceFlags : List ℚ → ℚ → List Bool
  | [], _ => []
  | t :: ts, told => forceSolve t (t - told) :: forceFlags ts t

/-- Configuration with every modality inactive. -/
def cfgAllInactive : FactorGraphConfig :=
  ⟨⟨false⟩, ⟨false⟩, ⟨false⟩, ⟨false, false, []⟩⟩

/-- Configuration with only the prior active, of type `Prior3`, with
parameter vector `[0,0,0,2,2,2]`. -/
def cfgPriorOnly : FactorGraphConfig :=
  ⟨⟨false⟩, ⟨false⟩, ⟨false⟩, ⟨true, true, [0, 0, 0, 2, 2, 2]⟩⟩

/-- Configuration with only GNSS active. -/
def cfgGNSSOnly : FactorGraphConfig :=
  ⟨⟨true⟩, ⟨false⟩, ⟨false⟩, ⟨false, false, []⟩⟩

/-! ### Helper lemmas -/

theorem solveFlags_append (a b : List Event) :
    solveFlags (a ++ b) = solveFlags a ++ solveFlags b := by
  simp [solveFlags]

theorem solveFlags_Predict (cfg : FactorGraphConfig) (a b : ℚ) :
    solveFlags (Predict cfg a b) = [] := by
  cases hI : cfg.IMU.IsActive <;> cases hO : cfg.Odom.IsActive <;>
    simp [Predict, solveFlags, hI, hO]

theorem solveFlags_Measure (cfg : FactorGraphConfig) (a b : ℚ) :
    solveFlags (Measure cfg a b) = [] := by
  cases hG : cfg.GNSS.IsActive <;>
    cases hP : (cfg.Prior.IsActive && cfg.Prior.TypeIsPrior3) <;>
    simp [Measure, solveFlags, hG, hP]

theorem solveFlags_nil : solveFlags [] = [] := rfl

theorem solveFlags_refine (t : ℚ) : solveFlags [Event.refineSolve t] = [] := rfl

theorem solveFlags_solveCall (b : Bool) : solveFlags [Event.solveCall b] = [b] := rfl

theorem solveFlags_stepEvents (cfg : FactorGraphConfig) (tf told t : ℚ) :
    solveFlags (stepEvents cfg tf told t) =
      [decide (fmodC t 60 < (t - told) * (11 / 10))] := by
  simp only [stepEvents, solveFlags_append, apply_ite solveFlags,
    solveFlags_Predict, solveFlags_Measure, solveFlags_refine, solveFlags_solveCall,
    solveFlags_nil, ite_self]
  simp

theorem loopTrace_solveFlags (cfg : FactorGraphConfig) (tf : ℚ)
    (ts : List ℚ) (told : ℚ) :
    solveFlags (loopTrace cfg tf ts told) = forceFlags ts told := by
  induction ts generalizing told with
  | nil => simp [loopTrace, forceFlags, solveFlags]
  | cons t rest ih =>
    simp only [loopTrace, forceFlags, solveFlags_append, solveFlags_stepEvents, ih,
      forceSolve, mul_comm ((11 : ℚ) / 10), List.singleton_append]

theorem predictEventsOf_append (a b : List Event) :
    predictEventsOf (a ++ b) = predictEventsOf a ++ predictEventsOf b := by
  simp [predictEventsOf]

theorem predictEventsOf_Measure (cfg : FactorGraphConfig) (a b : ℚ) :
    predictEventsOf (Measure cfg a b) = [] := by
  cases hG : cfg.GNSS.IsActive <;>
    cases hP : (cfg.Prior.IsActive && cfg.Prior.TypeIsPrior3) <;>
    simp [Measure, predictEventsOf, hG, hP]

theorem predictEventsOf_Predict (cfg : FactorGraphConfig) (a b : ℚ) :
    predictEventsOf (Predict cfg a b) = Predict cfg a b := by
  cases hI : cfg.IMU.IsActive <;> cases hO : cfg.Odom.IsActive <;>
    simp [Predict, predictEventsOf, hI, hO]

theorem predictEventsOf_nil : predictEventsOf [] = [] := rfl

theorem predictEventsOf_refine (t : ℚ) :
    predictEventsOf [Event.refineSolve t] = [] := rfl

theorem predictEventsOf_solveCall (b : Bool) :
    predictEventsOf [Event.solveCall b] = [] := rfl

theorem predictEventsOf_stepEvents (cfg : FactorGraphConfig) (tf told t : ℚ) :
    predictEventsOf (stepEvents cfg tf told t) =
      (if tf < t then Predict cfg told t else []) := by
  simp only [stepEvents, predictEventsOf_append, apply_ite predictEventsOf,
    predictEventsOf_Measure, predictEventsOf_Predict, predictEventsOf_refine,
    predictEventsOf_solveCall, predictEventsOf_nil, ite_self]
  by_cases h1 : tf < t <;> simp [h1]

theorem initGraph_fallback (cfg : FactorGraphConfig) (Meas : List SensorData)
    (T : ℚ) (hG : cfg.GNSS.IsActive = false) (hI : cfg.IMU.IsActive = false)
    (hO : cfg.Odom.IsActive = false) :
    InitGraph cfg Meas T =
      ⟨[⟨POSITION_STATE, T, [0, 0, 0], false⟩],
       [⟨POSITION_STATE, T, [0, 0, 0], [1, 1, 1]⟩]⟩ := by
  have hT : ¬ (T < T - 1) := by linarith
  simp [InitGraph, addState, addPriorFactor, setAllConstantOutsideWindow,
    zeroVec, hG, hI, hO, hT]

/-! ### Claim theorems -/

/-- C1 (counterexample): with GNSS, IMU and Odom all inactive and initial
timestamp `0`, the fallback branch of `InitGraph` does produce a single
anchor state, but after `setAllConstantOutsideWindow(1.0, TimeInitial)` that
anchor is NOT frozen: the §4.1 rule freezes only `timestamp < 0 - 1.0`, and
the anchor sits at timestamp `0`. -/
theorem claim1_cex_anchor_not_frozen :
    (¬ ∃ s ∈ (InitGraph cfgAllInactive [] 0).states, s.frozen = true) ∧
    (InitGraph cfgAllInactive [] 0).states ≠ [] := by
  rw [initGraph_fallback cfgAllInactive [] 0 rfl rfl rfl]
  simp

/-- C1 (amended): when no sensing modality is active, the fallback branch of
`InitGraph` adds exactly one position StateVariable at the initial timestamp
(mean `[0,0,0]`) with exactly one broad prior factor (shared standard
deviation `1.0`), and after `setAllConstantOutsideWindow(1.0, TimeInitial)`
that single anchor remains free, because `TimeInitial < TimeInitial - 1.0`
fails under the §4.1 freezing rule. -/
theorem claim1_amended_fallback_anchor_stays_free (cfg : FactorGraphConfig)
    (Meas : List SensorData) (T : ℚ) (hG : cfg.GNSS.IsActive = false)
    (hI : cfg.IMU.IsActive = false) (hO : cfg.Odom.IsActive = false) :
    (InitGraph cfg Meas T).states = [⟨POSITION_STATE, T, [0, 0, 0], false⟩] ∧
    (InitGraph cfg Meas T).factors.length = 1 ∧
    ∀ s ∈ (InitGraph cfg Meas T).states, s.frozen = false := by
  rw [initGraph_fallback cfg Meas T hG hI hO]
  simp

/-- C1 (witness): the amended statement instantiated at the all-inactive
configuration, no measurements, and initial timestamp `0`. -/
theorem claim1_witness :
    (cfgAllInactive.GNSS.IsActive = false ∧ cfgAllInactive.IMU.IsActive = false ∧
      cfgAllInactive.Odom.IsActive = false) ∧
    ((InitGraph cfgAllInactive [] 0).states =
      [⟨POSITION_STATE, 0, [0, 0, 0], false⟩] ∧
    (InitGraph cfgAllInactive [] 0).factors.length = 1 ∧
    ∀ s ∈ (InitGraph cfgAllInactive [] 0).states, s.frozen = false) :=
  ⟨⟨rfl, rfl, rfl⟩,
   claim1_amended_fallback_anchor_stays_free cfgAllInactive [] 0 rfl rfl rfl⟩

/-- C2 (counterexample): in a run whose first timestamp is `30` (with no
later steps), the scheduled `Solve` call at the very first timestep is
invoked with force flag `false`, because `fmod(30, 60) = 30` is not below
`1.1 × 1` — the first timestep's flag is not forced to `true`. -/
theorem claim2_cex_first_solve_not_forced :
    (solveFlags (runTrace cfgAllInactive 30 [])).head? = some false := by
  have h : fmodC 30 60 = 30 := by norm_num [fmodC, truncQ]
  simp only [runTrace, solveFlags, List.filterMap_cons, loopTrace]
  rw [← solveFlags, solveFlags_append, solveFlags_append, solveFlags_stepEvents]
  norm_num [h]

/-- C2 (amended): at the very first timestep the code runs an unconditional
extra thorough solve (`Graph.solve`, the refinement solve) before the
scheduled `Solve`, but the scheduled `Solve` at the first timestep receives
the ordinary formula value `forceSolve(TimeFirst, 1)` rather than a forced
`true`; the post-loop `Solve` at the end of the run is always invoked with
force flag `true`. -/
theorem claim2_amended_first_refine_last_forced (cfg : FactorGraphConfig)
    (tf : ℚ) (laterSteps : List ℚ) :
    Event.refineSolve tf ∈ stepEvents cfg tf (tf - 1) tf ∧
    solveFlags (stepEvents cfg tf (tf - 1) tf) = [forceSolve tf 1] ∧
    (solveFlags (runTrace cfg tf laterSteps)).getLast? = some true := by
  refine ⟨?_, ?_, ?_⟩
  · simp [stepEvents]
  · rw [solveFlags_stepEvents]
    simp [forceSolve, mul_comm]
  · simp only [runTrace, solveFlags, List.filterMap_cons]
    rw [← solveFlags, solveFlags_append]
    simp [solveFlags]

/-- C3 (confirmed): at every timestep of the estimation loop, the force flag
passed to `Solve` equals the scheduler formula
`(TimeNow mod 60) < 1.1 × (TimeNow − TimeOld)`, with `TimeOld` threaded from
the previous processed timestamp and equal to `TimeFirst − 1` at the first
step. -/
theorem claim3_scheduler_flag_iff_formula (cfg : FactorGraphConfig)
    (tf : ℚ) (laterSteps : List ℚ) :
    solveFlags (loopTrace cfg tf (tf :: laterSteps) (tf - 1)) =
      forceFlags (tf :: laterSteps) (tf - 1) :=
  loopTrace_solveFlags cfg tf (tf :: laterSteps) (tf - 1)

/-- C4 (counterexample): with GNSS active and an empty measurement set, the
first relevant timestamp cannot be determined; `CreateGraphAndSolve` returns
`1` with no graph work, but the process exit status produced by `main` is
`0`, not nonzero as claimed. -/
theorem claim4_cex_exit_status_zero :
    GetFirstTimestamp [] cfgGNSSOnly = none ∧
    (CreateGraphAndSolve cfgGNSSOnly [] []).1 = 1 ∧
    (CreateGraphAndSolve cfgGNSSOnly [] []).2 = [] ∧
    (appMain cfgGNSSOnly [] []).exitStatus = 0 := by
  refine ⟨rfl, rfl, rfl, rfl⟩

/-- C4 (amended): if the first or the last relevant timestamp cannot be
determined from the input measurements, `CreateGraphAndSolve` aborts with
nonzero return status before any graph work (its event trace is empty), and
`main` logs the failure and skips writing the output — but the process exit
status is `0`, because `main` ends with `return 0` on both paths. -/
theorem claim4_amended_abort_before_graph_work (cfg : FactorGraphConfig)
    (Meas : List SensorData) (laterSteps : List ℚ)
    (h : GetFirstTimestamp Meas cfg = none ∨ GetLastTimestamp Meas cfg = none) :
    (CreateGraphAndSolve cfg Meas laterSteps).1 = 1 ∧
    (CreateGraphAndSolve cfg Meas laterSteps).2 = [] ∧
    appMain cfg Meas laterSteps = ⟨0, true, false⟩ := by
  have hcgs : CreateGraphAndSolve cfg Meas laterSteps = (1, []) := by
    rcases h with h | h
    · simp [CreateGraphAndSolve, h]
    · cases hf : GetFirstTimestamp Meas cfg with
      | none => simp [CreateGraphAndSolve, hf]
      | some tf => simp [CreateGraphAndSolve, hf, h]
  refine ⟨by rw [hcgs], by rw [hcgs], ?_⟩
  simp [appMain, hcgs]

/-- C4 (witness): the amended statement instantiated at the GNSS-only
configuration with an empty measurement set. -/
theorem claim4_witness :
    (GetFirstTimestamp [] cfgGNSSOnly = none ∨
      GetLastTimestamp [] cfgGNSSOnly = none) ∧
    ((CreateGraphAndSolve cfgGNSSOnly [] []).1 = 1 ∧
    (CreateGraphAndSolve cfgGNSSOnly [] []).2 = [] ∧
    appMain cfgGNSSOnly [] [] = ⟨0, true, false⟩) :=
  ⟨Or.inl rfl,
   claim4_amended_abort_before_graph_work cfgGNSSOnly [] [] (Or.inl rfl)⟩

/-- C5 (counterexample): with only the prior active and parameter vector
`[0,0,0,2,2,2]`, the single prior factor present after `InitGraph` has
standard deviation `[1,1,1]` (the hard-coded broad prior), not the `[2,2,2]`
given in the parameter vector. -/
theorem claim5_cex_prior_stddev_not_parameter :
    (¬ ∃ f ∈ (InitGraph cfgPriorOnly [] 0).factors, f.stdDev = [2, 2, 2]) ∧
    (InitGraph cfgPriorOnly [] 0).factors.length = 1 := by
  rw [initGraph_fallback cfgPriorOnly [] 0 rfl rfl rfl]
  norm_num

/-- C5 (amended): for a configuration with only `Prior` active and any fixed
parameter vector, after `InitGraph` the graph contains exactly one position
StateVariable at the initial timestamp with mean `[0,0,0]` and exactly one
prior factor — but that factor's standard deviation is the hard-coded shared
`1.0` (i.e. `[1,1,1]`), independent of the parameter vector; the parameter
vector's standard deviations are used only by the `Prior3` factor added
later in `Measure`. -/
theorem claim5_amended_unit_stddev_prior (cfg : FactorGraphConfig)
    (Meas : List SensorData) (T : ℚ) (hG : cfg.GNSS.IsActive = false)
    (hI : cfg.IMU.IsActive = false) (hO : cfg.Odom.IsActive = false)
    (hP : cfg.Prior.IsActive = true) :
    (InitGraph cfg Meas T).states = [⟨POSITION_STATE, T, [0, 0, 0], false⟩] ∧
    (InitGraph cfg Meas T).factors =
      [⟨POSITION_STATE, T, [0, 0, 0], [1, 1, 1]⟩] := by
  rw [initGraph_fallback cfg Meas T hG hI hO]
  exact ⟨rfl, rfl⟩

/-- C5 (witness): the amended statement instantiated at the prior-only
configuration with parameter vector `[0,0,0,2,2,2]` and initial timestamp
`0`. -/
theorem claim5_witness :
    (cfgPriorOnly.GNSS.IsActive = false ∧ cfgPriorOnly.IMU.IsActive = false ∧
      cfgPriorOnly.Odom.IsActive = false ∧ cfgPriorOnly.Prior.IsActive = true) ∧
    ((InitGraph cfgPriorOnly [] 0).states =
      [⟨POSITION_STATE, 0, [0, 0, 0], false⟩] ∧
    (InitGraph cfgPriorOnly [] 0).factors =
      [⟨POSITION_STATE, 0, [0, 0, 0], [1, 1, 1]⟩]) :=
  ⟨⟨rfl, rfl, rfl, rfl⟩,
   claim5_amended_unit_stddev_prior cfgPriorOnly [] 0 rfl rfl rfl rfl⟩

/-- C6 (confirmed): the Predict phase is skipped at the very first timestep
(the step at `TimeNow = TimeFirst` contributes no motion-model events), and
at every later timestep the step's motion-model events are exactly those of
`Predict`, which contributes an IMU event iff the IMU is active and an
odometry event iff odometry is active. -/
theorem claim6_predict_skipped_first_step (cfg : FactorGraphConfig)
    (tf told t : ℚ) :
    predictEventsOf (stepEvents cfg tf told tf) = [] ∧
    (tf < t →
      predictEventsOf (stepEvents cfg tf told t) = Predict cfg told t ∧
      ((Event.addIMU told t ∈ Predict cfg told t) ↔ cfg.IMU.IsActive = true) ∧
      ((Event.addOdometry told t ∈ Predict cfg told t) ↔
        cfg.Odom.IsActive = true)) := by
  refine ⟨?_, fun ht => ⟨?_, ?_, ?_⟩⟩
  · rw [predictEventsOf_stepEvents]
    simp
  · rw [predictEventsOf_stepEvents]
    simp [ht]
  · cases hI : cfg.IMU.IsActive <;> cases hO : cfg.Odom.IsActive <;>
      simp [Predict, hI, hO]
  · cases hI : cfg.IMU.IsActive <;> cases hO : cfg.Odom.IsActive <;>
      simp [Predict, hI, hO]

/-- C6 (witness): the statement instantiated at the GNSS-only configuration,
`TimeFirst = 0`, `TimeOld = 0`, `TimeNow = 1`. -/
theorem claim6_witness :
    (0 : ℚ) < 1 ∧
    (predictEventsOf (stepEvents cfgGNSSOnly 0 0 0) = [] ∧
    (predictEventsOf (stepEvents cfgGNSSOnly 0 0 1) = Predict cfgGNSSOnly 0 1 ∧
      ((Event.addIMU 0 1 ∈ Predict cfgGNSSOnly 0 1) ↔
        cfgGNSSOnly.IMU.IsActive = true) ∧
      ((Event.addOdometry 0 1 ∈ Predict cfgGNSSOnly 0 1) ↔
        cfgGNSSOnly.Odom.IsActive = true))) :=
  ⟨by norm_num,
   ⟨(claim6_predict_skipped_first_step cfgGNSSOnly 0 0 1).1,
    (claim6_predict_skipped_first_step cfgGNSSOnly 0 0 1).2 (by norm_num)⟩⟩

/-- C7 (confirmed): on an empty input both utilities log the degenerate
condition and return without crashing — `SampleMeasurementsDown` returns an
empty output vector and `AverageMeasurement` a default-constructed
measurement. -/
theorem claim7_empty_input_logged_empty_result (SampleTime : ℚ) :
    SampleMeasurementsDown [] SampleTime = ([], true) ∧
    AverageMeasurement [] = (defaultSensor, true) :=
  ⟨rfl, rfl⟩

/-- C10 (confirmed): `AverageMeasurement` is the identity on singleton
inputs — the single measurement is returned unchanged (same type, timestamp,
mean and covariance) and no error is logged. -/
theorem claim10_singleton_identity (x : SensorData) :
    AverageMeasurement [x] = (x, false) := rfl

/-! ### Window partition lemmas for `SampleMeasurementsDown` -/

theorem windowsLoop_acc (S T : ℚ) (rest : List SensorData) :
    ∀ (tn : ℚ) (w : List SensorData) (acc : List (List SensorData)),
      windowsLoop S T rest tn w acc = acc ++ windowsLoop S T rest tn w [] := by
  induction rest with
  | nil => intro tn w acc; simp [windowsLoop]
  | cons s rest ih =>
    intro tn w acc
    by_cases hc : tn ≤ s.timestamp ∨ s.timestamp = T
    · simp only [windowsLoop, if_pos hc]
      rw [ih _ _ (acc ++ [w ++ [s]]), ih _ _ ([] ++ [w ++ [s]])]
      simp
    · simp only [windowsLoop, if_neg hc]
      exact ih _ _ acc

theorem sampleLoop_eq_map_flush (S T : ℚ) (rest : List SensorData) :
    ∀ (tn : ℚ) (w out : List SensorData),
      sampleLoop S T rest tn w out =
        out ++ (windowsLoop S T rest tn w []).map flushAvg := by
  induction rest with
  | nil => intro tn w out; simp [sampleLoop, windowsLoop]
  | cons s rest ih =>
    intro tn w out
    by_cases hc : tn ≤ s.timestamp ∨ s.timestamp = T
    · simp only [sampleLoop, windowsLoop, if_pos hc]
      rw [ih _ _ (out ++ [flushAvg (w ++ [s])]),
        windowsLoop_acc S T rest (tn + S) [] ([] ++ [w ++ [s]])]
      simp
    · simp only [sampleLoop, windowsLoop, if_neg hc]
      exact ih _ _ out

theorem windowsLoop_flatten (S T : ℚ) (rest : List SensorData) :
    ∀ (tn : ℚ) (w : List SensorData),
      (rest = [] → w = []) →
      (rest ≠ [] → (rest.getLastD defaultSensor).timestamp = T) →
      (windowsLoop S T rest tn w []).flatten = w ++ rest := by
  induction rest with
  | nil =>
    intro tn w hw _
    simp [windowsLoop, hw rfl]
  | cons s rest ih =>
    intro tn w _ hlast
    have hlast' : rest ≠ [] → (rest.getLastD defaultSensor).timestamp = T := by
      intro hne
      have h1 := hlast (by simp)
      rw [List.getLastD_cons, List.getLastD_eq_getLast?,
        List.getLast?_eq_getLast rest hne, Option.getD_some] at h1
      rw [List.getLastD_eq_getLast?, List.getLast?_eq_getLast rest hne,
        Option.getD_some]
      exact h1
    by_cases hc : tn ≤ s.timestamp ∨ s.timestamp = T
    · simp only [windowsLoop, if_pos hc]
      rw [windowsLoop_acc S T rest (tn + S) [] ([] ++ [w ++ [s]])]
      cases rest with
      | nil => simp [windowsLoop]
      | cons r rs =>
        rw [List.flatten_append]
        rw [ih (tn + S) [] (by simp) hlast']
        simp
    · have hrest : rest ≠ [] := by
        intro h0
        apply hc
        refine Or.inr ?_
        have := hlast (by simp)
        rwa [h0, List.getLastD_cons, List.getLastD_nil] at this
      simp only [windowsLoop, if_neg hc]
      rw [ih tn (w ++ [s]) (fun h => absurd h hrest) hlast']
      simp

theorem windowsLoop_mem_ne_nil (S T : ℚ) (rest : List SensorData) :
    ∀ (tn : ℚ) (w : List SensorData) (acc : List (List SensorData)),
      (∀ u ∈ acc, u ≠ []) →
      ∀ u ∈ windowsLoop S T rest tn w acc, u ≠ [] := by
  induction rest with
  | nil =>
    intro tn w acc hacc
    simpa [windowsLoop] using hacc
  | cons s rest ih =>
    intro tn w acc hacc
    by_cases hc : tn ≤ s.timestamp ∨ s.timestamp = T
    · simp only [windowsLoop, if_pos hc]
      refine ih _ _ _ ?_
      intro u hu
      rcases List.mem_append.1 hu with h | h
      · exact hacc u h
      · simp only [List.mem_singleton] at h
        subst h
        simp
    · simp only [windowsLoop, if_neg hc]
      exact ih _ _ _ hacc

/-- C8 (confirmed): for every non-empty input with non-decreasing
timestamps, the averaging windows formed by `SampleMeasurementsDown`
partition the input in order — their concatenation is exactly the input,
every window is non-empty, and every window is flushed into exactly one
output element (the output is the in-order image of the windows under the
flush-average operation), so no measurement is dropped. -/
theorem claim8_windows_partition_input (Input : List SensorData) (S : ℚ)
    (hne : Input ≠ [])
    (hsorted : Input.Pairwise (fun a b => a.timestamp ≤ b.timestamp)) :
    (theWindows Input S).flatten = Input ∧
    (∀ w ∈ theWindows Input S, w ≠ []) ∧
    (SampleMeasurementsDown Input S).1 = (theWindows Input S).map flushAvg ∧
    ((SampleMeasurementsDown Input S).1).length = (theWindows Input S).length := by
  clear hsorted
  match Input, hne with
  | x :: xs, _ =>
    have hmap : (SampleMeasurementsDown (x :: xs) S).1 =
        (theWindows (x :: xs) S).map flushAvg := by
      rw [SampleMeasurementsDown, theWindows]
      exact sampleLoop_eq_map_flush S _ (x :: xs) (x.timestamp + S) [] []
    refine ⟨?_, ?_, hmap, ?_⟩
    · rw [theWindows]
      rw [windowsLoop_flatten S _ (x :: xs) (x.timestamp + S) [] (by simp) ?_]
      · simp
      · intro _
        rw [List.getLastD_eq_getLast?, List.getLastD_eq_getLast?,
          List.getLast?_eq_getLast (x :: xs) (by simp)]
        simp
    · rw [theWindows]
      exact windowsLoop_mem_ne_nil S _ (x :: xs) (x.timestamp + S) [] [] (by simp)
    · rw [hmap, List.length_map]

/-- C8 (witness): the partition statement instantiated on a concrete
two-measurement input with non-decreasing timestamps and sample time `2`. -/
theorem claim8_witness :
    (([⟨0, 0, [1], [1]⟩, ⟨0, 1, [1], [1]⟩] : List SensorData) ≠ [] ∧
      ([⟨0, 0, [1], [1]⟩, ⟨0, 1, [1], [1]⟩] : List SensorData).Pairwise
        (fun a b => a.timestamp ≤ b.timestamp)) ∧
    ((theWindows [⟨0, 0, [1], [1]⟩, ⟨0, 1, [1], [1]⟩] 2).flatten =
      [⟨0, 0, [1], [1]⟩, ⟨0, 1, [1], [1]⟩] ∧
    (∀ w ∈ theWindows [⟨0, 0, [1], [1]⟩, ⟨0, 1, [1], [1]⟩] 2, w ≠ []) ∧
    (SampleMeasurementsDown [⟨0, 0, [1], [1]⟩, ⟨0, 1, [1], [1]⟩] 2).1 =
      (theWindows [⟨0, 0, [1], [1]⟩, ⟨0, 1, [1], [1]⟩] 2).map flushAvg ∧
    ((SampleMeasurementsDown [⟨0, 0, [1], [1]⟩, ⟨0, 1, [1], [1]⟩] 2).1).length =
      (theWindows [⟨0, 0, [1], [1]⟩, ⟨0, 1, [1], [1]⟩] 2).length) :=
  ⟨⟨by simp, by norm_num [List.pairwise_cons]⟩,
   claim8_windows_partition_input [⟨0, 0, [1], [1]⟩, ⟨0, 1, [1], [1]⟩] 2
     (by simp) (by norm_num [List.pairwise_cons])⟩

/-! ### Componentwise fold lemmas for `AverageMeasurement` -/

theorem foldl_triple (l : List SensorData) :
    ∀ (a : ℚ) (b c : List ℚ),
      l.foldl (fun (p : ℚ × List ℚ × List ℚ) m =>
        (p.1 + m.timestamp, addV p.2.1 m.mean, addV p.2.2 (cwiseInverse m.covariance)))
        (a, b, c) =
      (l.foldl (fun p m => p + m.timestamp) a,
       l.foldl (fun p m => addV p m.mean) b,
       l.foldl (fun p m => addV p (cwiseInverse m.covariance)) c) := by
  induction l with
  | nil => intro a b c; rfl
  | cons m l ih => intro a b c; simp only [List.foldl_cons, ih]

theorem foldl_add_timestamp (l : List SensorData) :
    ∀ a : ℚ, l.foldl (fun p m => p + m.timestamp) a =
      a + (l.map (fun m => m.timestamp)).sum := by
  induction l with
  | nil => intro a; simp
  | cons m l ih => intro a; simp [ih, add_assoc]

theorem addV_length (a b : List ℚ) : (addV a b).length = min a.length b.length := by
  simp [addV]

theorem addV_getD : ∀ (a b : List ℚ) (i : ℕ), i < a.length → i < b.length →
    (addV a b).getD i 0 = a.getD i 0 + b.getD i 0 := by
  intro a
  induction a with
  | nil => intro b i h; simp at h
  | cons q qs ih =>
    intro b i h1 h2
    cases b with
    | nil => simp at h2
    | cons r rs =>
      cases i with
      | zero => simp [addV]
      | succ j =>
        simp only [addV, List.zipWith_cons_cons, List.getD_cons_succ]
        exact ih rs j (by simpa using h1) (by simpa using h2)

theorem zeroVec_length (n : ℕ) : (zeroVec n).length = n := by simp [zeroVec]

theorem zeroVec_getD : ∀ (n i : ℕ), (zeroVec n).getD i 0 = 0 := by
  intro n
  induction n with
  | zero => intro i; simp [zeroVec]
  | succ k ih =>
    intro i
    cases i with
    | zero => simp [zeroVec, List.replicate_succ]
    | succ j =>
      simp only [zeroVec, List.replicate_succ, List.getD_cons_succ]
      exact ih j

theorem foldl_addV_length (f : SensorData → List ℚ) (l : List SensorData) :
    ∀ (acc : List ℚ) (d : ℕ), acc.length = d → (∀ m ∈ l, (f m).length = d) →
      (l.foldl (fun p m => addV p (f m)) acc).length = d := by
  induction l with
  | nil => intro acc d h _; simpa using h
  | cons m l ih =>
    intro acc d h hl
    simp only [List.foldl_cons]
    refine ih _ d ?_ (fun m' hm' => hl m' (by simp [hm']))
    rw [addV_length, h, hl m (by simp)]
    simp

theorem foldl_addV_getD (f : SensorData → List ℚ) (l : List SensorData) :
    ∀ (acc : List ℚ) (d : ℕ), acc.length = d → (∀ m ∈ l, (f m).length = d) →
      ∀ i, i < d →
        (l.foldl (fun p m => addV p (f m)) acc).getD i 0 =
          acc.getD i 0 + (l.map (fun m => (f m).getD i 0)).sum := by
  induction l with
  | nil => intro acc d _ _ i _; simp
  | cons m l ih =>
    intro acc d h hl i hi
    simp only [List.foldl_cons, List.map_cons, List.sum_cons]
    have hlen : (addV acc (f m)).length = d := by
      rw [addV_length, h, hl m (by simp)]
      simp
    rw [ih (addV acc (f m)) d hlen (fun m' hm' => hl m' (by simp [hm'])) i hi]
    rw [addV_getD acc (f m) i (by rw [h]; exact hi) (by rw [hl m (by simp)]; exact hi)]
    ring

theorem getD_map_lt (f : ℚ → ℚ) : ∀ (l : List ℚ) (i : ℕ), i < l.length →
    (l.map f).getD i 0 = f (l.getD i 0) := by
  intro l
  induction l with
  | nil => intro i h; simp at h
  | cons q qs ih =>
    intro i h
    cases i with
    | zero => simp
    | succ j =>
      simp only [List.map_cons, List.getD_cons_succ]
      exact ih j (by simpa using h)

/-- C9 (confirmed): for two or more measurements with equal-dimension means
(and covariances) whose covariance entries are all nonzero,
`AverageMeasurement` returns the componentwise arithmetic mean of the input
means, the arithmetic mean of the input timestamps, and the componentwise
inverse of the sum of the componentwise inverses of the input covariances
(information-additive fusion). -/
theorem claim9_average_is_information_fusion (x y : SensorData)
    (rest : List SensorData) (d dc : ℕ)
    (hm : ∀ m ∈ x :: y :: rest, m.mean.length = d)
    (hc : ∀ m ∈ x :: y :: rest, m.covariance.length = dc)
    (hnz : ∀ m ∈ x :: y :: rest, ∀ q ∈ m.covariance, q ≠ 0) :
    ((AverageMeasurement (x :: y :: rest)).1).timestamp =
      ((x :: y :: rest).map (fun m => m.timestamp)).sum /
        (((x :: y :: rest).length : ℚ)) ∧
    (∀ i < d, ((AverageMeasurement (x :: y :: rest)).1).mean.getD i 0 =
      ((x :: y :: rest).map (fun m => m.mean.getD i 0)).sum /
        (((x :: y :: rest).length : ℚ))) ∧
    (∀ i < dc, ((AverageMeasurement (x :: y :: rest)).1).covariance.getD i 0 =
      (((x :: y :: rest).map (fun m => (m.covariance.getD i 0)⁻¹)).sum)⁻¹) := by
  clear hnz
  have hx : x.mean.length = d := hm x (by simp)
  have hxc : x.covariance.length = dc := hc x (by simp)
  have hcinv : ∀ m ∈ x :: y :: rest, (cwiseInverse m.covariance).length = dc := by
    intro m hm'
    simp [cwiseInverse, hc m hm']
  simp only [AverageMeasurement, foldl_triple]
  refine ⟨?_, ?_, ?_⟩
  · simp [foldl_add_timestamp, add_assoc]
  · intro i hi
    have hfold : ((x :: y :: rest).foldl (fun p m => addV p m.mean)
        (zeroVec x.mean.length)).length = d :=
      foldl_addV_length (fun m => m.mean) _ _ d (by simp [zeroVec_length, hx]) hm
    rw [getD_map_lt _ _ i (by rw [hfold]; exact hi)]
    rw [foldl_addV_getD (fun m => m.mean) _ _ d (by simp [zeroVec_length, hx]) hm i hi]
    rw [zeroVec_getD]
    simp [add_assoc]
  · intro i hi
    have hfold : ((x :: y :: rest).foldl
        (fun p m => addV p (cwiseInverse m.covariance))
        (zeroVec x.covariance.length)).length = dc :=
      foldl_addV_length (fun m => cwiseInverse m.covariance) _ _ dc
        (by simp [zeroVec_length, hxc]) hcinv
    rw [cwiseInverse]
    rw [getD_map_lt _ _ i (by rw [hfold]; exact hi)]
    rw [foldl_addV_getD (fun m => cwiseInverse m.covariance) _ _ dc
      (by simp [zeroVec_length, hxc]) hcinv i hi]
    rw [zeroVec_getD]
    have hmapeq : ((x :: y :: rest).map
        (fun m => (cwiseInverse m.covariance).getD i 0)) =
        ((x :: y :: rest).map (fun m => (m.covariance.getD i 0)⁻¹)) := by
      refine List.map_congr_left ?_
      intro m hm'
      have h2 := getD_map_lt (fun q => q⁻¹) m.covariance i
        (by rw [hc m hm']; exact hi)
      simpa [cwiseInverse] using h2
    rw [hmapeq]
    simp [add_assoc]

/-- C9 (witness): information fusion evaluated on two concrete
two-dimensional measurements. -/
theorem claim9_witness :
    ((∀ m ∈ [(⟨0, 0, [1, 3], [1, 1]⟩ : SensorData), ⟨0, 2, [3, 5], [1, 1]⟩],
        m.mean.length = 2) ∧
      (∀ m ∈ [(⟨0, 0, [1, 3], [1, 1]⟩ : SensorData), ⟨0, 2, [3, 5], [1, 1]⟩],
        m.covariance.length = 2) ∧
      (∀ m ∈ [(⟨0, 0, [1, 3], [1, 1]⟩ : SensorData), ⟨0, 2, [3, 5], [1, 1]⟩],
        ∀ q ∈ m.covariance, q ≠ 0)) ∧
    (((AverageMeasurement
        [(⟨0, 0, [1, 3], [1, 1]⟩ : SensorData), ⟨0, 2, [3, 5], [1, 1]⟩]).1).timestamp =
      (([(⟨0, 0, [1, 3], [1, 1]⟩ : SensorData), ⟨0, 2, [3, 5], [1, 1]⟩]).map
        (fun m => m.timestamp)).sum /
        ((([(⟨0, 0, [1, 3], [1, 1]⟩ : SensorData), ⟨0, 2, [3, 5], [1, 1]⟩]).length : ℚ)) ∧
    (∀ i < 2, ((AverageMeasurement
        [(⟨0, 0, [1, 3], [1, 1]⟩ : SensorData), ⟨0, 2, [3, 5], [1, 1]⟩]).1).mean.getD i 0 =
      (([(⟨0, 0, [1, 3], [1, 1]⟩ : SensorData), ⟨0, 2, [3, 5], [1, 1]⟩]).map
        (fun m => m.mean.getD i 0)).sum /
        ((([(⟨0, 0, [1, 3], [1, 1]⟩ : SensorData), ⟨0, 2, [3, 5], [1, 1]⟩]).length : ℚ))) ∧
    (∀ i < 2, ((AverageMeasurement
        [(⟨0, 0, [1, 3], [1, 1]⟩ : SensorData), ⟨0, 2, [3, 5], [1, 1]⟩]).1).covariance.getD i 0 =
      ((([(⟨0, 0, [1, 3], [1, 1]⟩ : SensorData), ⟨0, 2, [3, 5], [1, 1]⟩]).map
        (fun m => (m.covariance.getD i 0)⁻¹)).sum)⁻¹)) :=
  ⟨⟨by norm_num, by norm_num, by norm_num⟩,
   claim9_average_is_information_fusion ⟨0, 0, [1, 3], [1, 1]⟩ ⟨0, 2, [3, 5], [1, 1]⟩
     [] 2 2 (by norm_num) (by norm_num) (by norm_num)⟩

end LibRSF
